import Mathlib

/-!
Shallow embedding of the tire/terrain co-simulation TerrainNode
(projects/cosimulation/test_HMMWV_cosimulation/TerrainNode.cpp).

Machine doubles are modelled by exact rationals; the physics engine
(body creation, contact-force query) is modelled by explicit state and
oracle functions.  Every definition is translated from the source file;
definitions whose names start with spec are translated from the wording
of the specification for comparison.
-/

namespace ChronoCosim

/-- A 3-vector with rational components (models ChVector / real3). -/
@[ext]
structure Vec3 where
  x : ℚ
  y : ℚ
  z : ℚ
deriving DecidableEq

instance : Inhabited Vec3 := ⟨⟨0, 0, 0⟩⟩

instance : Zero Vec3 := ⟨⟨0, 0, 0⟩⟩

instance : Add Vec3 := ⟨fun a b => ⟨a.x + b.x, a.y + b.y, a.z + b.z⟩⟩

instance : Sub Vec3 := ⟨fun a b => ⟨a.x - b.x, a.y - b.y, a.z - b.z⟩⟩

/-- Componentwise division of a vector by a scalar (models v / 3). -/
instance : HDiv Vec3 ℚ Vec3 := ⟨fun a q => ⟨a.x / q, a.y / q, a.z / q⟩⟩

theorem Vec3.add_def (a b : Vec3) : a + b = ⟨a.x + b.x, a.y + b.y, a.z + b.z⟩ := rfl

theorem Vec3.sub_def (a b : Vec3) : a - b = ⟨a.x - b.x, a.y - b.y, a.z - b.z⟩ := rfl

theorem Vec3.div_def (a : Vec3) (q : ℚ) : a / q = ⟨a.x / q, a.y / q, a.z / q⟩ := rfl

theorem Vec3.zero_def : (0 : Vec3) = ⟨0, 0, 0⟩ := rfl

instance : AddCommMonoid Vec3 where
  add_assoc a b c := by ext <;> simp [Vec3.add_def] <;> ring
  zero_add a := by ext <;> simp [Vec3.add_def, Vec3.zero_def]
  add_zero a := by ext <;> simp [Vec3.add_def, Vec3.zero_def]
  add_comm a b := by ext <;> simp [Vec3.add_def] <;> ring
  nsmul := nsmulRec

/-- A quaternion with rational components (models ChQuaternion). -/
structure Quat where
  e0 : ℚ
  e1 : ℚ
  e2 : ℚ
  e3 : ℚ
deriving DecidableEq

instance : Inhabited Quat := ⟨⟨1, 0, 0, 0⟩⟩

/-- The IsZero test on a real3, from the Chrono::Parallel math utilities:
all three components are exactly zero. -/
def IsZero (v : Vec3) : Bool :=
  v.x == 0 && v.y == 0 && v.z == 0

/-- State of one rigid body in the terrain system: identifier, position,
orientation, linear velocity, rotation quaternion rate. -/
structure BodyState where
  identifier : ℤ
  pos : Vec3
  rot : Quat
  pos_dt : Vec3
  rot_dt : Quat
deriving DecidableEq

instance : Inhabited BodyState := ⟨⟨0, default, default, default, default⟩⟩

/-- Terrain type (TerrainNode::Type). -/
inductive TType where
  | RIGID
  | GRANULAR
deriving DecidableEq

/-- Starting value for granular-body identifiers (m_Id_g, set in Construct). -/
def Id_g : ℤ := 100000

/-- The portion of the TerrainNode state relevant to construction and
checkpointing.  gen_particles is the (externally produced) output of the
Poisson-disk particle generator: the bodies it would add, in order, with
identifiers Id_g, Id_g+1, ....  num_shapes counts contact shapes added so
far (num_rigid_shapes in the data manager). -/
structure TerrainState where
  ttype : TType
  fixed_proxies : Bool
  constructed : Bool
  bodies : List BodyState
  num_shapes : ℕ
  num_particles : ℕ
  particles_start_index : ℕ
  proxy_start_index : ℕ
  gen_particles : List BodyState
deriving DecidableEq

/-- A fixed structural body as created in Construct (platform id -2,
container id -1, optional ground anchor id -2); created at the origin. -/
def mkFixedBody (id : ℤ) : BodyState :=
  { identifier := id, pos := 0, rot := ⟨1, 0, 0, 0⟩, pos_dt := 0, rot_dt := ⟨0, 0, 0, 0⟩ }

/-- TerrainNode::Construct.  Guarded by m_constructed; adds the platform
body (1 contact box), the container body (4 contact boxes), an optional
ground anchor when proxies are fixed, records particles_start_index
(number of rigid bodies so far), generates the granular particles
(granular mode only; one sphere shape each), and records
proxy_start_index (number of rigid shapes so far).  Finally marks the
system constructed. -/
def construct (s : TerrainState) : TerrainState :=
  if s.constructed then s
  else
    let bodies1 := s.bodies ++ [mkFixedBody (-2), mkFixedBody (-1)]
                   ++ (if s.fixed_proxies then [mkFixedBody (-2)] else [])
    let shapes1 := s.num_shapes + 1 + 4
    let psi := bodies1.length
    let bodies2 := if s.ttype = TType.GRANULAR then bodies1 ++ s.gen_particles else bodies1
    let shapes2 := if s.ttype = TType.GRANULAR then shapes1 + s.gen_particles.length else shapes1
    let nparts := if s.ttype = TType.GRANULAR then s.gen_particles.length else s.num_particles
    { s with
      constructed := true
      bodies := bodies2
      num_shapes := shapes2
      num_particles := nparts
      particles_start_index := psi
      proxy_start_index := shapes2 }

/-- A checkpoint file: recorded simulation time, recorded particle count,
and one state record per qualifying body (id, pos, rot, pos_dt, rot_dt). -/
structure Checkpoint where
  time : ℚ
  num_particles : ℕ
  records : List BodyState
deriving DecidableEq

/-- The filter used by WriteCheckpoint: bodies with identifier below
m_Id_g are skipped. -/
def isGranularBody (b : BodyState) : Bool :=
  !(b.identifier < Id_g)

/-- TerrainNode::WriteCheckpoint: writes current time, m_num_particles,
then the state of every body whose identifier is at least m_Id_g, in
body-list order. -/
def writeCheckpoint (s : TerrainState) (time : ℚ) : Checkpoint :=
  { time := time
    num_particles := s.num_particles
    records := s.bodies.filter isGranularBody }

/-- One line of the checkpoint-reading loop in Settle: overwrites the
position, orientation, linear velocity and rotation rate of an
already-constructed body from a checkpoint record (the identifier is
only asserted, never written). -/
def restoreBody (b : BodyState) (r : BodyState) : BodyState :=
  { b with pos := r.pos, rot := r.rot, pos_dt := r.pos_dt, rot_dt := r.rot_dt }

/-- The body-state application loop of the checkpoint branch of Settle:
for ib from m_particles_start_index to the end of the body list, read the
next record and overwrite that body. -/
def applyCheckpoint (s : TerrainState) (ck : Checkpoint) : TerrainState :=
  { s with
    bodies := s.bodies.take s.particles_start_index
              ++ List.zipWith restoreBody (s.bodies.drop s.particles_start_index) ck.records }

/-- The checkpoint branch of TerrainNode::Settle (m_use_checkpoint true),
acting on the already-constructed state: read the recorded particle
count; if it differs from m_num_particles the run aborts (MPI_Abort)
before any body state is touched; otherwise the per-body states are
applied. -/
def settleCheckpoint (s : TerrainState) (ck : Checkpoint) : Except String TerrainState :=
  if ck.num_particles ≠ s.num_particles then
    Except.error "ERROR: inconsistent number of particles in checkpoint file!"
  else
    Except.ok (applyCheckpoint s ck)

/-- State of one tire-mesh vertex received at synchronization. -/
structure VertexState where
  pos : Vec3
  vel : Vec3
deriving DecidableEq

instance : Inhabited VertexState := ⟨⟨0, 0⟩⟩

/-- One tire-mesh triangle: three vertex indices (local to the tire). -/
structure Triangle where
  v1 : ℕ
  v2 : ℕ
  v3 : ℕ
deriving DecidableEq

instance : Inhabited Triangle := ⟨⟨0, 0, 0⟩⟩

/-- Per-tire bookkeeping held by the terrain node (TireData). -/
structure TireData where
  num_vert : ℕ
  num_tri : ℕ
  start_vert : ℕ
  start_tri : ℕ
  vertex_states : List VertexState
  triangles : List Triangle
deriving DecidableEq

instance : Inhabited TireData := ⟨⟨0, 0, 0, 0, [], []⟩⟩

/-- A proxy body entry in the per-tire registry: the body identifier set
at creation and the stored mesh-element index (m_index). -/
structure ProxyBody where
  identifier : ℤ
  index : ℕ
deriving DecidableEq

instance : Inhabited ProxyBody := ⟨⟨0, 0⟩⟩

/-- The offset-accumulation loop of TerrainNode::Initialize: receiving
(vertex count, triangle count) for tires 0..N-1 in order, it records the
current running totals as the starting offsets of each tire and then
advances them. -/
def computeStarts : List (ℕ × ℕ) → ℕ → ℕ → List (ℕ × ℕ)
  | [], _, _ => []
  | c :: rest, sv, st => (sv, st) :: computeStarts rest (sv + c.1) (st + c.2)

/-- TerrainNode::CreateNodeProxies: one body per mesh vertex, identifier
equal to the global vertex index (start_vert + iv), registry index equal
to the loop counter iv. -/
def createNodeProxies (start_vert num_vert : ℕ) : List ProxyBody :=
  (List.range num_vert).map (fun (iv : ℕ) => { identifier := (start_vert : ℤ) + (iv : ℤ), index := iv })

/-- TerrainNode::CreateFaceProxies: one body per mesh triangle,
identifier equal to the global triangle index (start_tri + it), registry
index equal to the loop counter it. -/
def createFaceProxies (start_tri num_tri : ℕ) : List ProxyBody :=
  (List.range num_tri).map (fun (it : ℕ) => { identifier := (start_tri : ℤ) + (it : ℤ), index := it })

/-- Body of the ForcesNodeProxies loop over a list of loop indices iv:
query the contact force of proxy iv; when it is nonzero append its three
components to the force vector and the stored m_index of proxy iv to the
index vector. -/
def forcesNPAux (proxies : List ProxyBody) (force : ℕ → Vec3) : List ℕ → List ℚ × List ℕ
  | [] => ([], [])
  | iv :: rest =>
    let tl := forcesNPAux proxies force rest
    let f := force iv
    if IsZero f then tl
    else (f.x :: f.y :: f.z :: tl.1, (proxies.getD iv default).index :: tl.2)

/-- TerrainNode::ForcesNodeProxies: loop iv over 0..num_vert-1 collecting
nonzero proxy contact forces.  force iv is the engine contact-force query
for the body of proxy iv. -/
def forcesNodeProxies (num_vert : ℕ) (proxies : List ProxyBody) (force : ℕ → Vec3) :
    List ℚ × List ℕ :=
  forcesNPAux proxies force (List.range num_vert)

/-- Insert-or-increment on the vertex force map of ForcesFaceProxies:
if the key is present add the force to its value, otherwise insert it. -/
def insertAdd : List (ℕ × Vec3) → ℕ → Vec3 → List (ℕ × Vec3)
  | [], k, f => [(k, f)]
  | (k', v) :: rest, k, f =>
    if k' = k then (k', v + f) :: rest else (k', v) :: insertAdd rest k f

/-- Lookup in the vertex force map, with zero for an absent key. -/
def lookupD : List (ℕ × Vec3) → ℕ → Vec3
  | [], _ => 0
  | (k', v) :: rest, k => if k' = k then v else lookupD rest k

/-- Map-building loop of TerrainNode::ForcesFaceProxies over the
triangles of one tire: the proxy of triangle it carries contact force
force it; a zero force is skipped, otherwise one third of the force is
accumulated into each of the entries of the three triangle vertices. -/
def forcesFaceAux : List Triangle → ℕ → (ℕ → Vec3) → List (ℕ × Vec3) → List (ℕ × Vec3)
  | [], _, _, m => m
  | t :: rest, it, force, m =>
    let m' :=
      if IsZero (force it) then m
      else
        let f : Vec3 := force it / (3 : ℚ)
        insertAdd (insertAdd (insertAdd m t.v1 f) t.v2 f) t.v3 f
    forcesFaceAux rest (it + 1) force m'

/-- The vertex force map built by ForcesFaceProxies for one tire. -/
def forcesFaceMap (tris : List Triangle) (force : ℕ → Vec3) : List (ℕ × Vec3) :=
  forcesFaceAux tris 0 force []

/-- Serialization loop of ForcesFaceProxies: each map entry contributes
its key to the index vector and its three force components to the force
vector. -/
def serializeMap : List (ℕ × Vec3) → List ℚ × List ℕ
  | [] => ([], [])
  | (k, v) :: rest =>
    let tl := serializeMap rest
    (v.x :: v.y :: v.z :: tl.1, k :: tl.2)

/-- TerrainNode::ForcesFaceProxies: build the sparse vertex force map,
then serialize it. -/
def forcesFaceProxies (tris : List Triangle) (force : ℕ → Vec3) : List ℚ × List ℕ :=
  serializeMap (forcesFaceMap tris force)

/-- Modelled from the spec wording of claim C3: the total contribution a
vertex v receives is the sum, over the triangles whose proxy carries a
nonzero force, of one third of that force for each occurrence of v among
the triangle vertices. -/
def specTriContrib (t : Triangle) (v : ℕ) (f : Vec3) : Vec3 :=
  (if t.v1 = v then f else 0) + (if t.v2 = v then f else 0) + (if t.v3 = v then f else 0)

/-- Modelled from the spec wording of claim C3: sum of all F/3
contributions to vertex v over an enumerated triangle list. -/
def specVertexForce : List Triangle → ℕ → (ℕ → Vec3) → ℕ → Vec3
  | [], _, _, _ => 0
  | t :: rest, it, force, v =>
    (if IsZero (force it) then 0 else specTriContrib t v (force it / (3 : ℚ)))
      + specVertexForce rest (it + 1) force v

/-- Position of a tire-mesh vertex (m_vertex_states[i].pos). -/
def vertPos (td : TireData) (i : ℕ) : Vec3 :=
  (td.vertex_states.getD i default).pos

/-- Velocity of a tire-mesh vertex (m_vertex_states[i].vel). -/
def vertVel (td : TireData) (i : ℕ) : Vec3 :=
  (td.vertex_states.getD i default).vel

/-- Kinematic state written to one face proxy by UpdateFaceProxies. -/
structure FaceProxyState where
  pos : Vec3
  rot : Quat
  pos_dt : Vec3
  wvel_loc : Vec3
deriving DecidableEq

/-- Per-triangle body update of TerrainNode::UpdateFaceProxies: position
at (pA+pB+pC)/3, identity orientation, linear velocity (vA+vB+vC)/3,
zero local angular velocity. -/
def updateFaceProxy (td : TireData) (it : ℕ) : FaceProxyState :=
  let tri := td.triangles.getD it default
  let pA := vertPos td tri.v1
  let pB := vertPos td tri.v2
  let pC := vertPos td tri.v3
  let pos := (pA + pB + pC) / (3 : ℚ)
  let vA := vertVel td tri.v1
  let vB := vertVel td tri.v2
  let vC := vertVel td tri.v3
  { pos := pos
    rot := ⟨1, 0, 0, 0⟩
    pos_dt := (vA + vB + vC) / (3 : ℚ)
    wvel_loc := 0 }

/-- Per-triangle contact-shape rewrite of UpdateFaceProxies: the three
triangle_rigid slots at offset 3*start_tri + 3*it receive the vertex
positions expressed relative to the new proxy position. -/
def triShapeWrite (td : TireData) (it : ℕ) (shape : ℕ → Vec3) : ℕ → Vec3 :=
  let tri := td.triangles.getD it default
  let pA := vertPos td tri.v1
  let pB := vertPos td tri.v2
  let pC := vertPos td tri.v3
  let pos := (pA + pB + pC) / (3 : ℚ)
  fun n =>
    if n = 3 * td.start_tri + 3 * it then pA - pos
    else if n = 3 * td.start_tri + 3 * it + 1 then pB - pos
    else if n = 3 * td.start_tri + 3 * it + 2 then pC - pos
    else shape n

/-- The shape-data loop of UpdateFaceProxies over a list of triangle
indices. -/
def updateFaceShapesAux (td : TireData) : List ℕ → (ℕ → Vec3) → ℕ → Vec3
  | [], shape => shape
  | it :: rest, shape => updateFaceShapesAux td rest (triShapeWrite td it shape)

/-- TerrainNode::UpdateFaceProxies, shape-data part: rewrite the contact
shape slots of all triangles of one tire, in order it = 0..num_tri-1. -/
def updateFaceShapes (td : TireData) (shape : ℕ → Vec3) : ℕ → Vec3 :=
  updateFaceShapesAux td (List.range td.num_tri) shape

/-- The per-tire force-collection-and-send step of Synchronize: the
vectors start empty and are filled from the force-collection function of
the active mode only when step_number is positive. -/
def synchronizeSendOne (ttype : TType) (step_number : ℕ) (td : TireData)
    (proxies : List ProxyBody) (force : ℕ → Vec3) : List ℚ × List ℕ :=
  if step_number > 0 then
    match ttype with
    | TType.RIGID => forcesNodeProxies td.num_vert proxies force
    | TType.GRANULAR => forcesFaceProxies td.triangles force
  else ([], [])

/-- The send phase of TerrainNode::Synchronize: one (force vector, index
vector) message per tire, in tire order. -/
def synchronizeSend (ttype : TType) (step_number : ℕ) (tires : List TireData)
    (proxies : ℕ → List ProxyBody) (force : ℕ → ℕ → Vec3) : List (List ℚ × List ℕ) :=
  (List.range tires.length).map fun which =>
    synchronizeSendOne ttype step_number (tires.getD which default) (proxies which) (force which)

/-- TerrainNode::Advance: while t < step_size take an internal step of
size min m_step_size (step_size - t); fuel bounds the number of
iterations of the model of the while loop.  Returns the list of internal
step sizes taken. -/
def advanceList (h : ℚ) : ℕ → ℚ → List ℚ
  | 0, _ => []
  | fuel + 1, rem =>
    if 0 < rem then min h rem :: advanceList h fuel (rem - min h rem) else []

/-- Concrete tire fixture: 4 vertices, 2 triangles, global triangle
offset 3 (as if a previous tire contributed 3 triangles). -/
def exampleTire : TireData :=
  { num_vert := 4
    num_tri := 2
    start_vert := 0
    start_tri := 3
    vertex_states := [⟨⟨0, 0, 0⟩, ⟨1, 0, 0⟩⟩, ⟨⟨3, 0, 0⟩, ⟨0, 1, 0⟩⟩,
                      ⟨⟨0, 3, 0⟩, ⟨0, 0, 1⟩⟩, ⟨⟨3, 3, 0⟩, ⟨0, 0, 0⟩⟩]
    triangles := [⟨0, 1, 2⟩, ⟨1, 3, 2⟩] }

/-- Concrete constructed granular terrain state with 480 generated
particles (bodies elided; only the counts matter for the mismatch). -/
def mismatchState : TerrainState :=
  { ttype := TType.GRANULAR
    fixed_proxies := false
    constructed := true
    bodies := []
    num_shapes := 5
    num_particles := 480
    particles_start_index := 2
    proxy_start_index := 5
    gen_particles := [] }

/-- A checkpoint whose header declares 500 particles. -/
def badCheckpoint : Checkpoint :=
  { time := 0, num_particles := 500, records := [] }

/-- Concrete constructed granular terrain state with two structural
bodies followed by two granular particles in nontrivial states. -/
def roundtripState : TerrainState :=
  { ttype := TType.GRANULAR
    fixed_proxies := false
    constructed := true
    bodies := [mkFixedBody (-2), mkFixedBody (-1),
               { identifier := 100000, pos := ⟨1, 2, 3⟩, rot := ⟨1, 0, 0, 0⟩,
                 pos_dt := ⟨4, 5, 6⟩, rot_dt := ⟨0, 7, 0, 0⟩ },
               { identifier := 100001, pos := ⟨-1, 0, 9⟩, rot := ⟨0, 1, 0, 0⟩,
                 pos_dt := ⟨0, 0, -2⟩, rot_dt := ⟨0, 0, 0, 8⟩ }]
    num_shapes := 7
    num_particles := 2
    particles_start_index := 2
    proxy_start_index := 7
    gen_particles := [] }

/-! ### Helper lemmas -/

theorem computeStarts_length (l : List (ℕ × ℕ)) (sv st : ℕ) :
    (computeStarts l sv st).length = l.length := by
  induction l generalizing sv st with
  | nil => rfl
  | cons c rest ih => simp [computeStarts, ih]

theorem computeStarts_head (l : List (ℕ × ℕ)) (sv st : ℕ) (h : l ≠ []) :
    (computeStarts l sv st).getD 0 (0, 0) = (sv, st) := by
  cases l with
  | nil => exact absurd rfl h
  | cons c rest => rfl

theorem computeStarts_succ (l : List (ℕ × ℕ)) (sv st i : ℕ) (h : i + 1 < l.length) :
    (computeStarts l sv st).getD (i + 1) (0, 0)
      = (((computeStarts l sv st).getD i (0, 0)).1 + (l.getD i (0, 0)).1,
         ((computeStarts l sv st).getD i (0, 0)).2 + (l.getD i (0, 0)).2) := by
  induction l generalizing sv st i with
  | nil => simp at h
  | cons c rest ih =>
    cases i with
    | zero =>
      cases rest with
      | nil => simp at h
      | cons c2 r2 => simp [computeStarts]
    | succ j =>
      have hj : j + 1 < rest.length := by simpa using h
      simpa [computeStarts] using ih (sv + c.1) (st + c.2) j hj

theorem forcesNPAux_snd (proxies : List ProxyBody) (force : ℕ → Vec3) (L : List ℕ) :
    (forcesNPAux proxies force L).2
      = (L.filter (fun iv => !IsZero (force iv))).map (fun iv => (proxies.getD iv default).index) := by
  induction L with
  | nil => rfl
  | cons iv rest ih =>
    by_cases h : IsZero (force iv) <;> simp [forcesNPAux, h, ih]

theorem forcesNPAux_fst_len (proxies : List ProxyBody) (force : ℕ → Vec3) (L : List ℕ) :
    (forcesNPAux proxies force L).1.length = 3 * (forcesNPAux proxies force L).2.length := by
  induction L with
  | nil => rfl
  | cons iv rest ih =>
    by_cases h : IsZero (force iv)
    · simp [forcesNPAux, h, ih]
    · simp [forcesNPAux, h, ih]; ring

theorem createNodeProxies_getD (start_vert num_vert j : ℕ) (h : j < num_vert) :
    (createNodeProxies start_vert num_vert).getD j default
      = { identifier := (start_vert : ℤ) + (j : ℤ), index := j } := by
  have hlen : j < (createNodeProxies start_vert num_vert).length := by
    simpa [createNodeProxies] using h
  rw [List.getD_eq_getElem _ _ hlen]
  simp [createNodeProxies]

theorem createFaceProxies_getD (start_tri num_tri j : ℕ) (h : j < num_tri) :
    (createFaceProxies start_tri num_tri).getD j default
      = { identifier := (start_tri : ℤ) + (j : ℤ), index := j } := by
  have hlen : j < (createFaceProxies start_tri num_tri).length := by
    simpa [createFaceProxies] using h
  rw [List.getD_eq_getElem _ _ hlen]
  simp [createFaceProxies]

/-! ### Claim theorems -/

/-- Claim C1: when Synchronize runs with step_number = 0, the message
sent back to every tire node carries empty force and index vectors,
whatever the contact-force oracle reports (the force-collection
functions are never consulted at step 0). -/
theorem step0_send_empty (ttype : TType) (tires : List TireData)
    (proxies : ℕ → List ProxyBody) (force : ℕ → ℕ → Vec3) :
    synchronizeSend ttype 0 tires proxies force = List.replicate tires.length ([], []) := by
  simp [synchronizeSend, synchronizeSendOne]

/-- Claim C2: after the handshake loop of Initialize processes tires in
order 0..N-1, the recorded per-tire starting offsets partition the global
index space contiguously: the first tire starts at (0, 0) and each later
tire starts exactly where the previous tire ends, for vertices and for
triangles alike. -/
theorem offsets_partition (counts : List (ℕ × ℕ)) :
    (computeStarts counts 0 0).length = counts.length
    ∧ (counts ≠ [] → (computeStarts counts 0 0).getD 0 (0, 0) = (0, 0))
    ∧ (∀ i, i + 1 < counts.length →
        ((computeStarts counts 0 0).getD (i + 1) (0, 0)).1
            = ((computeStarts counts 0 0).getD i (0, 0)).1 + (counts.getD i (0, 0)).1
        ∧ ((computeStarts counts 0 0).getD (i + 1) (0, 0)).2
            = ((computeStarts counts 0 0).getD i (0, 0)).2 + (counts.getD i (0, 0)).2) := by
  refine ⟨computeStarts_length counts 0 0, fun h => computeStarts_head counts 0 0 h, ?_⟩
  intro i hi
  rw [computeStarts_succ counts 0 0 i hi]
  exact ⟨rfl, rfl⟩

/-- Witness for claim C2 at counts [(4,2),(6,10)]: offsets start at
(0,0) and tire 1 starts at tire 0 end. -/
theorem offsets_partition_witness :
    (computeStarts [(4, 2), (6, 10)] 0 0).getD 0 (0, 0) = (0, 0)
    ∧ ((computeStarts [(4, 2), (6, 10)] 0 0).getD 1 (0, 0)).1
        = ((computeStarts [(4, 2), (6, 10)] 0 0).getD 0 (0, 0)).1 + 4
    ∧ ((computeStarts [(4, 2), (6, 10)] 0 0).getD 1 (0, 0)).2
        = ((computeStarts [(4, 2), (6, 10)] 0 0).getD 0 (0, 0)).2 + 2 := by
  refine ⟨(offsets_partition [(4, 2), (6, 10)]).2.1 (by decide), ?_, ?_⟩
  · have h := ((offsets_partition [(4, 2), (6, 10)]).2.2 0 (by decide)).1
    simpa using h
  · have h := ((offsets_partition [(4, 2), (6, 10)]).2.2 0 (by decide)).2
    simpa using h

/-- Claim C4: when the checkpoint branch of Settle reads a particle
count that differs from the live count, the run aborts with the reported
inconsistency and no state is ever applied (no ok result exists). -/
theorem checkpoint_mismatch_aborts (s : TerrainState) (ck : Checkpoint)
    (h : ck.num_particles ≠ s.num_particles) :
    settleCheckpoint s ck
        = Except.error "ERROR: inconsistent number of particles in checkpoint file!"
    ∧ ∀ t : TerrainState, settleCheckpoint s ck ≠ Except.ok t := by
  constructor
  · simp [settleCheckpoint, h]
  · intro t hcontra
    simp [settleCheckpoint, h] at hcontra

/-- Witness for claim C4: a file declaring 500 particles against a live
run that generated 480 aborts with the inconsistency error. -/
theorem checkpoint_mismatch_aborts_witness :
    badCheckpoint.num_particles ≠ mismatchState.num_particles
    ∧ settleCheckpoint mismatchState badCheckpoint
        = Except.error "ERROR: inconsistent number of particles in checkpoint file!" := by
  refine ⟨by decide, ?_⟩
  exact (checkpoint_mismatch_aborts mismatchState badCheckpoint (by decide)).1

/-- Claim C6: Construct is idempotent; a second invocation (from Settle,
the initialization phase, or directly) leaves the whole terrain state,
in particular the body count, shape count, particle count and the
recorded start indices, unchanged. -/
theorem construct_idempotent (s : TerrainState) :
    construct (construct s) = construct s := by
  by_cases h : s.constructed
  · simp [construct, h]
  · simp [construct, h]

/-- Claim C9: proxy creation makes exactly one proxy per relevant mesh
element (one per vertex in rigid mode, one per triangle in granular
mode) and assigns the proxy for local element j the body identifier
start offset + j, its global element index. -/
theorem proxy_creation_spec (start_vert num_vert start_tri num_tri : ℕ) :
    (createNodeProxies start_vert num_vert).length = num_vert
    ∧ (createFaceProxies start_tri num_tri).length = num_tri
    ∧ (∀ j, j < num_vert →
        ((createNodeProxies start_vert num_vert).getD j default).identifier
          = (start_vert : ℤ) + (j : ℤ))
    ∧ (∀ j, j < num_tri →
        ((createFaceProxies start_tri num_tri).getD j default).identifier
          = (start_tri : ℤ) + (j : ℤ)) := by
  refine ⟨by simp [createNodeProxies], by simp [createFaceProxies], ?_, ?_⟩
  · intro j hj
    rw [createNodeProxies_getD start_vert num_vert j hj]
  · intro j hj
    rw [createFaceProxies_getD start_tri num_tri j hj]

/-- Witness for claim C9 with 4 vertices at offset 10 and 3 triangles at
offset 20, checked at local element 2. -/
theorem proxy_creation_spec_witness :
    (createNodeProxies 10 4).length = 4
    ∧ (createFaceProxies 20 3).length = 3
    ∧ (2 : ℕ) < 4
    ∧ ((createNodeProxies 10 4).getD 2 default).identifier = (10 : ℤ) + (2 : ℤ)
    ∧ ((createFaceProxies 20 3).getD 2 default).identifier = (20 : ℤ) + (2 : ℤ) := by
  refine ⟨(proxy_creation_spec 10 4 20 3).1, (proxy_creation_spec 10 4 20 3).2.1, by decide,
    (proxy_creation_spec 10 4 20 3).2.2.1 2 (by decide),
    (proxy_creation_spec 10 4 20 3).2.2.2 2 (by decide)⟩

/-- Claim C10: in rigid mode the index vector reported by
ForcesNodeProxies holds the per-tire local vertex indices, the stored
m_index assigned as the creation loop counter, independent of the global
starting offset used for the body identifiers; the index list is the
increasing filter of 0..num_vert-1 by nonzero force, hence strictly
increasing, and the force vector has exactly three entries per reported
index. -/
theorem forces_node_proxies_local_indices (start_vert num_vert : ℕ) (force : ℕ → Vec3) :
    (forcesNodeProxies num_vert (createNodeProxies start_vert num_vert) force).2
        = (List.range num_vert).filter (fun iv => !IsZero (force iv))
    ∧ List.Pairwise (· < ·)
        (forcesNodeProxies num_vert (createNodeProxies start_vert num_vert) force).2
    ∧ (forcesNodeProxies num_vert (createNodeProxies start_vert num_vert) force).1.length
        = 3 * (forcesNodeProxies num_vert (createNodeProxies start_vert num_vert) force).2.length := by
  have hsnd : (forcesNodeProxies num_vert (createNodeProxies start_vert num_vert) force).2
      = (List.range num_vert).filter (fun iv => !IsZero (force iv)) := by
    rw [forcesNodeProxies, forcesNPAux_snd]
    have hid : ∀ iv ∈ (List.range num_vert).filter (fun iv => !IsZero (force iv)),
        ((createNodeProxies start_vert num_vert).getD iv default).index = iv := by
      intro iv hiv
      have hlt : iv < num_vert := List.mem_range.mp (List.mem_of_mem_filter hiv)
      rw [createNodeProxies_getD start_vert num_vert iv hlt]
    calc ((List.range num_vert).filter (fun iv => !IsZero (force iv))).map
          (fun iv => ((createNodeProxies start_vert num_vert).getD iv default).index)
        = ((List.range num_vert).filter (fun iv => !IsZero (force iv))).map id :=
          List.map_congr_left hid
      _ = (List.range num_vert).filter (fun iv => !IsZero (force iv)) := List.map_id _
  refine ⟨hsnd, ?_, forcesNPAux_fst_len _ _ _⟩
  rw [hsnd]
  exact (List.pairwise_lt_range num_vert).filter _

/-- Claim C7 model lemma: with positive micro-step and enough fuel, the
internal steps of Advance sum exactly to the remaining duration. -/
theorem advanceList_sum (h : ℚ) (hh : 0 < h) :
    ∀ (fuel : ℕ) (rem : ℚ), 0 ≤ rem → rem ≤ (fuel : ℚ) * h →
      (advanceList h fuel rem).sum = rem := by
  intro fuel
  induction fuel with
  | zero =>
    intro rem h0 h1
    simp only [Nat.cast_zero, zero_mul] at h1
    have : rem = 0 := le_antisymm h1 h0
    simp [advanceList, this]
  | succ n ih =>
    intro rem h0 h1
    by_cases hr : 0 < rem
    · rw [advanceList, if_pos hr, List.sum_cons]
      have hrec : (advanceList h n (rem - min h rem)).sum = rem - min h rem := by
        apply ih
        · have : min h rem ≤ rem := min_le_right _ _
          linarith
        · rcases le_or_lt h rem with hc | hc
          · rw [min_eq_left hc]
            push_cast at h1 ⊢
            linarith
          · rw [min_eq_right (le_of_lt hc)]
            simp only [sub_self]
            positivity
      rw [hrec]
      ring
    · rw [advanceList, if_neg hr]
      have : rem = 0 := le_antisymm (le_of_not_lt hr) h0
      simp [this]

/-- Claim C7 model lemma: every internal step of Advance is positive and
no larger than the configured micro-step. -/
theorem advanceList_mem (h : ℚ) (hh : 0 < h) :
    ∀ (fuel : ℕ) (rem : ℚ), ∀ x ∈ advanceList h fuel rem, 0 < x ∧ x ≤ h := by
  intro fuel
  induction fuel with
  | zero => intro rem x hx; simp [advanceList] at hx
  | succ n ih =>
    intro rem x hx
    by_cases hr : 0 < rem
    · rw [advanceList, if_pos hr] at hx
      rcases List.mem_cons.mp hx with hx1 | hx2
      · subst hx1
        exact ⟨lt_min hh hr, min_le_left _ _⟩
      · exact ih _ x hx2
    · rw [advanceList, if_neg hr] at hx
      simp at hx

/-- Claim C7 model lemma: once the fuel covers the duration, extra fuel
does not change the result: the while loop has terminated. -/
theorem advanceList_stable (h : ℚ) (hh : 0 < h) :
    ∀ (fuel : ℕ) (rem : ℚ), 0 ≤ rem → rem ≤ (fuel : ℚ) * h →
      advanceList h (fuel + 1) rem = advanceList h fuel rem := by
  intro fuel
  induction fuel with
  | zero =>
    intro rem h0 h1
    simp only [Nat.cast_zero, zero_mul] at h1
    have : rem = 0 := le_antisymm h1 h0
    subst this
    simp [advanceList]
  | succ n ih =>
    intro rem h0 h1
    by_cases hr : 0 < rem
    · rw [advanceList, if_pos hr]
      conv_rhs => rw [advanceList, if_pos hr]
      congr 1
      apply ih
      · have : min h rem ≤ rem := min_le_right _ _
        linarith
      · rcases le_or_lt h rem with hc | hc
        · rw [min_eq_left hc]
          push_cast at h1 ⊢
          linarith
        · rw [min_eq_right (le_of_lt hc)]
          simp only [sub_self]
          positivity
    · rw [advanceList, if_neg hr]
      rw [advanceList, if_neg hr]

/-- Claim C7: for any positive macro step and positive configured
micro-step, Advance covers the macro step with internal steps that are
each positive and at most the micro-step, whose sizes sum exactly to the
macro step in exact arithmetic, and the subdivision loop terminates
(extra iterations change nothing). -/
theorem advance_subdivision (h s : ℚ) (hh : 0 < h) (hs : 0 < s) :
    ∃ n : ℕ,
      (advanceList h n s).sum = s
      ∧ (∀ x ∈ advanceList h n s, 0 < x ∧ x ≤ h)
      ∧ advanceList h (n + 1) s = advanceList h n s := by
  refine ⟨⌈s / h⌉₊, ?_, fun x hx => advanceList_mem h hh _ s x hx, ?_⟩
  all_goals
    have hb : s ≤ (⌈s / h⌉₊ : ℚ) * h := by
      have hle : s / h ≤ (⌈s / h⌉₊ : ℚ) := Nat.le_ceil (s / h)
      calc s = s / h * h := by field_simp
        _ ≤ (⌈s / h⌉₊ : ℚ) * h := mul_le_mul_of_nonneg_right hle (le_of_lt hh)
  · exact advanceList_sum h hh _ s (le_of_lt hs) hb
  · exact advanceList_stable h hh _ s (le_of_lt hs) hb

/-- Witness for claim C7 at micro-step 1/2 and macro step 5/4. -/
theorem advance_subdivision_witness :
    (0 : ℚ) < 1 / 2 ∧ (0 : ℚ) < 5 / 4
    ∧ ∃ n : ℕ,
        (advanceList (1 / 2) n (5 / 4)).sum = 5 / 4
        ∧ (∀ x ∈ advanceList (1 / 2) n (5 / 4), 0 < x ∧ x ≤ 1 / 2)
        ∧ advanceList (1 / 2) (n + 1) (5 / 4) = advanceList (1 / 2) n (5 / 4) :=
  ⟨by norm_num, by norm_num, advance_subdivision (1 / 2) (5 / 4) (by norm_num) (by norm_num)⟩

/-- Lookup after insert-or-increment: the entry of the inserted key grows
by the inserted force, all other entries are unchanged. -/
theorem lookupD_insertAdd (m : List (ℕ × Vec3)) (k : ℕ) (f : Vec3) (v : ℕ) :
    lookupD (insertAdd m k f) v = lookupD m v + (if k = v then f else 0) := by
  induction m with
  | nil =>
    by_cases h : k = v <;> simp [insertAdd, lookupD, h]
  | cons kv rest ih =>
    obtain ⟨k', w⟩ := kv
    by_cases h1 : k' = k
    · subst h1
      by_cases h2 : k' = v
      · subst h2
        simp [insertAdd, lookupD]
      · simp [insertAdd, lookupD, h2]
    · by_cases h2 : k' = v
      · subst h2
        have hk : ¬ k = k' := fun e => h1 e.symm
        simp [insertAdd, lookupD, h1, hk]
      · simp [insertAdd, lookupD, h1, h2, ih]

/-- Map-building invariant of ForcesFaceProxies: the accumulated entry of
a vertex equals its initial entry plus the sum of all F/3 contributions
of the remaining triangles. -/
theorem forcesFaceAux_lookup (force : ℕ → Vec3) (v : ℕ) :
    ∀ (tris : List Triangle) (it : ℕ) (m : List (ℕ × Vec3)),
      lookupD (forcesFaceAux tris it force m) v
        = lookupD m v + specVertexForce tris it force v := by
  intro tris
  induction tris with
  | nil => intro it m; simp [forcesFaceAux, specVertexForce]
  | cons t rest ih =>
    intro it m
    by_cases h : IsZero (force it)
    · simp only [forcesFaceAux, specVertexForce, h, if_true, ite_true]
      rw [ih]
      abel
    · simp only [forcesFaceAux, specVertexForce, h, if_false, ite_false, Bool.false_eq_true]
      rw [ih, lookupD_insertAdd, lookupD_insertAdd, lookupD_insertAdd, specTriContrib]
      abel

/-- Serialization of the vertex force map: the emitted indices are
exactly the map keys in order. -/
theorem serializeMap_snd (m : List (ℕ × Vec3)) :
    (serializeMap m).2 = m.map Prod.fst := by
  induction m with
  | nil => rfl
  | cons kv rest ih => simp [serializeMap, ih]

/-- Serialization of the vertex force map: three force components per
emitted index. -/
theorem serializeMap_fst_len (m : List (ℕ × Vec3)) :
    (serializeMap m).1.length = 3 * (serializeMap m).2.length := by
  induction m with
  | nil => rfl
  | cons kv rest ih => simp [serializeMap, ih]; ring

/-- Claim C3: in granular mode the vertex force map built by
ForcesFaceProxies assigns every vertex the sum of the F/3 contributions
of all triangles with nonzero proxy force that contain it (zero-force
triangles contribute nothing), the emitted index vector lists exactly
the map keys, and three force components are emitted per index. -/
theorem face_force_distribution (tris : List Triangle) (force : ℕ → Vec3) (v : ℕ) :
    lookupD (forcesFaceMap tris force) v = specVertexForce tris 0 force v
    ∧ (forcesFaceProxies tris force).2 = (forcesFaceMap tris force).map Prod.fst
    ∧ (forcesFaceProxies tris force).1.length = 3 * (forcesFaceProxies tris force).2.length := by
  refine ⟨?_, serializeMap_snd _, serializeMap_fst_len _⟩
  rw [forcesFaceMap, forcesFaceAux_lookup]
  simp [lookupD]

/-- Restoring a body from its own record is the identity. -/
theorem restoreBody_self (b : BodyState) : restoreBody b b = b := rfl

/-- Applying the restore loop to a record list equal to the body list
itself changes nothing. -/
theorem zipWith_restore_self (l : List BodyState) :
    List.zipWith restoreBody l l = l := by
  induction l with
  | nil => rfl
  | cons b tl ih => simp [List.zipWith, restoreBody_self, ih]

/-- When the bodies at positions at or past n are exactly the bodies the
checkpoint filter keeps, the filtered list is the suffix from n. -/
theorem filter_eq_drop (l : List BodyState) (n : ℕ)
    (hp : ∀ i, i < l.length → (n ≤ i ↔ isGranularBody (l.getD i default) = true)) :
    l.filter isGranularBody = l.drop n := by
  induction l generalizing n with
  | nil => simp
  | cons b tl ih =>
    cases n with
    | zero =>
      have hb : isGranularBody b = true := by
        have h0 := (hp 0 (by simp)).mp (Nat.zero_le 0)
        simpa using h0
      have htl : tl.filter isGranularBody = tl := by
        have := ih 0 (fun i hi => by
          have h1 := hp (i + 1) (by simpa using Nat.succ_lt_succ hi)
          simpa using h1)
        simpa using this
      simp [List.filter_cons, hb, htl]
    | succ m =>
      have hb : isGranularBody b = false := by
        have h0 := hp 0 (by simp)
        have hnot : ¬ isGranularBody b = true := by
          intro hcontra
          have := h0.mpr (by simpa using hcontra)
          omega
        simpa using hnot
      have htl : tl.filter isGranularBody = tl.drop m := by
        apply ih
        intro i hi
        have h1 := hp (i + 1) (by simpa using Nat.succ_lt_succ hi)
        simpa [Nat.succ_le_succ_iff] using h1
      simp [List.filter_cons, hb, htl, List.drop_succ_cons]

/-- Claim C5: writing a checkpoint and immediately reading it back via
the checkpoint branch of Settle, on a state whose bodies past
particles_start_index are exactly the bodies with granular identifiers,
succeeds and restores the state exactly: every qualifying body keeps its
position, orientation, linear velocity and rotation-quaternion rate. -/
theorem checkpoint_roundtrip (s : TerrainState) (t : ℚ)
    (hpart : ∀ i, i < s.bodies.length →
      (s.particles_start_index ≤ i ↔ Id_g ≤ (s.bodies.getD i default).identifier)) :
    settleCheckpoint s (writeCheckpoint s t) = Except.ok s := by
  have hfilter : s.bodies.filter isGranularBody = s.bodies.drop s.particles_start_index := by
    apply filter_eq_drop
    intro i hi
    rw [hpart i hi]
    simp [isGranularBody, not_lt]
  rw [settleCheckpoint]
  rw [if_neg (by simp [writeCheckpoint])]
  rw [applyCheckpoint, writeCheckpoint]
  simp only [hfilter, zipWith_restore_self, List.take_append_drop]

/-- Witness for claim C5 on a concrete constructed state with two
structural bodies and two granular particles in nontrivial states. -/
theorem checkpoint_roundtrip_witness :
    (∀ i, i < roundtripState.bodies.length →
      (roundtripState.particles_start_index ≤ i
        ↔ Id_g ≤ (roundtripState.bodies.getD i default).identifier))
    ∧ settleCheckpoint roundtripState (writeCheckpoint roundtripState 7)
        = Except.ok roundtripState :=
  ⟨by decide, checkpoint_roundtrip roundtripState 7 (by decide)⟩

/-- A triangle-shape write leaves slots outside its own three offsets
unchanged. -/
theorem triShapeWrite_other (td : TireData) (it : ℕ) (shape : ℕ → Vec3) (n : ℕ)
    (hn : ∀ k, k < 3 → n ≠ 3 * td.start_tri + 3 * it + k) :
    triShapeWrite td it shape n = shape n := by
  have h0 : ¬ n = 3 * td.start_tri + 3 * it := by
    have := hn 0 (by omega); omega
  have h1 : ¬ n = 3 * td.start_tri + 3 * it + 1 := hn 1 (by omega)
  have h2 : ¬ n = 3 * td.start_tri + 3 * it + 2 := hn 2 (by omega)
  simp [triShapeWrite, h0, h1, h2]

/-- A triangle-shape write at one of its own three offsets does not
depend on the previous shape data. -/
theorem triShapeWrite_own (td : TireData) (it : ℕ) (shape shape2 : ℕ → Vec3) (n : ℕ)
    (hn : 3 * td.start_tri + 3 * it ≤ n ∧ n < 3 * td.start_tri + 3 * it + 3) :
    triShapeWrite td it shape n = triShapeWrite td it shape2 n := by
  have hcase : n = 3 * td.start_tri + 3 * it ∨ n = 3 * td.start_tri + 3 * it + 1
      ∨ n = 3 * td.start_tri + 3 * it + 2 := by omega
  rcases hcase with hc | hc | hc <;> subst hc <;> simp [triShapeWrite]

/-- The shape-update loop leaves slots not owned by any processed
triangle unchanged. -/
theorem updateFaceShapesAux_other (td : TireData) (L : List ℕ) (shape : ℕ → Vec3) (n : ℕ)
    (hn : ∀ j ∈ L, ∀ k, k < 3 → n ≠ 3 * td.start_tri + 3 * j + k) :
    updateFaceShapesAux td L shape n = shape n := by
  induction L generalizing shape with
  | nil => rfl
  | cons j rest ih =>
    rw [updateFaceShapesAux]
    rw [ih _ (fun j2 hj2 => hn j2 (List.mem_cons_of_mem j hj2))]
    exact triShapeWrite_other td j shape n (hn j (List.mem_cons_self j rest))

/-- The shape-update loop writes the slots of a processed triangle it
with the values of the write for it. -/
theorem updateFaceShapesAux_write (td : TireData) (L : List ℕ) (it n : ℕ)
    (hnd : L.Nodup) (hit : it ∈ L)
    (hn : 3 * td.start_tri + 3 * it ≤ n ∧ n < 3 * td.start_tri + 3 * it + 3) :
    ∀ shape, updateFaceShapesAux td L shape n = triShapeWrite td it shape n := by
  induction L with
  | nil => simp at hit
  | cons j rest ih =>
    intro shape
    rw [updateFaceShapesAux]
    rcases List.mem_cons.mp hit with hji | hmem
    · subst hji
      have hnotin : it ∉ rest := (List.nodup_cons.mp hnd).1
      apply updateFaceShapesAux_other
      intro j2 hj2 k hk hcontra
      have : j2 = it := by omega
      exact hnotin (this ▸ hj2)
    · have hnd2 : rest.Nodup := (List.nodup_cons.mp hnd).2
      rw [ih hnd2 hmem (triShapeWrite td j shape)]
      exact triShapeWrite_own td it _ _ n hn

/-- Claim C8: in granular mode UpdateFaceProxies sets, for each triangle
of the tire, the face proxy position to the centroid of its three
current vertex positions, its orientation to the identity quaternion,
its linear velocity to the average of the three vertex velocities, its
angular velocity to zero, and rewrites the three local contact-shape
slots of the triangle to the vertex positions minus the centroid. -/
theorem update_face_proxies_spec (td : TireData) (shape : ℕ → Vec3) (it : ℕ)
    (h : it < td.num_tri) :
    (updateFaceProxy td it).pos
        = (vertPos td (td.triangles.getD it default).v1
            + vertPos td (td.triangles.getD it default).v2
            + vertPos td (td.triangles.getD it default).v3) / (3 : ℚ)
    ∧ (updateFaceProxy td it).rot = ⟨1, 0, 0, 0⟩
    ∧ (updateFaceProxy td it).pos_dt
        = (vertVel td (td.triangles.getD it default).v1
            + vertVel td (td.triangles.getD it default).v2
            + vertVel td (td.triangles.getD it default).v3) / (3 : ℚ)
    ∧ (updateFaceProxy td it).wvel_loc = 0
    ∧ updateFaceShapes td shape (3 * td.start_tri + 3 * it)
        = vertPos td (td.triangles.getD it default).v1 - (updateFaceProxy td it).pos
    ∧ updateFaceShapes td shape (3 * td.start_tri + 3 * it + 1)
        = vertPos td (td.triangles.getD it default).v2 - (updateFaceProxy td it).pos
    ∧ updateFaceShapes td shape (3 * td.start_tri + 3 * it + 2)
        = vertPos td (td.triangles.getD it default).v3 - (updateFaceProxy td it).pos := by
  have hw : ∀ n, 3 * td.start_tri + 3 * it ≤ n → n < 3 * td.start_tri + 3 * it + 3 →
      updateFaceShapes td shape n = triShapeWrite td it shape n := by
    intro n hn1 hn2
    exact updateFaceShapesAux_write td (List.range td.num_tri) it n
      (List.nodup_range td.num_tri) (List.mem_range.mpr h) ⟨hn1, hn2⟩ shape
  refine ⟨rfl, rfl, rfl, rfl, ?_, ?_, ?_⟩
  · rw [hw _ (by omega) (by omega)]
    simp [triShapeWrite, updateFaceProxy]
  · rw [hw _ (by omega) (by omega)]
    simp [triShapeWrite, updateFaceProxy]
  · rw [hw _ (by omega) (by omega)]
    simp [triShapeWrite, updateFaceProxy]

/-- Witness for claim C8 on the concrete tire fixture, triangle 0:
centroid (1,1,0), identity rotation, averaged velocity, zero angular
velocity, first shape slot rewritten to vertex - centroid. -/
theorem update_face_proxies_spec_witness :
    0 < exampleTire.num_tri
    ∧ (updateFaceProxy exampleTire 0).pos = ⟨1, 1, 0⟩
    ∧ (updateFaceProxy exampleTire 0).rot = ⟨1, 0, 0, 0⟩
    ∧ (updateFaceProxy exampleTire 0).pos_dt = ⟨1 / 3, 1 / 3, 1 / 3⟩
    ∧ (updateFaceProxy exampleTire 0).wvel_loc = 0
    ∧ updateFaceShapes exampleTire (fun _ => 0) (3 * exampleTire.start_tri + 3 * 0)
        = ⟨-1, -1, 0⟩ := by
  have hthm := update_face_proxies_spec exampleTire (fun _ => 0) 0 (by decide)
  refine ⟨by decide, ?_, hthm.2.1, ?_, hthm.2.2.2.1, ?_⟩
  · rw [hthm.1]
    ext <;> norm_num [vertPos, exampleTire, Vec3.add_def, Vec3.div_def, List.getD]
  · rw [hthm.2.2.1]
    ext <;> norm_num [vertVel, exampleTire, Vec3.add_def, Vec3.div_def, List.getD]
  · rw [hthm.2.2.2.2.1]
    ext <;>
      norm_num [vertPos, exampleTire, updateFaceProxy, Vec3.add_def, Vec3.sub_def,
        Vec3.div_def, List.getD]

end ChronoCosim
